import Mathlib

/-!
Verification of the billing batch-generation and payment-reconciliation core
of the `ipl-be-svc` service, shallowly embedded from the Go sources.

Conventions of the embedding:
* Go pointer fields (`*int64`, `*string`, ...) become `Option` fields; the
  Go nil-checks become `Option` matches.
* Go `int`/`int64` arithmetic is modelled on unbounded `Int` (the fee and
  amount computations stay far below the 64-bit range; wrap-around is outside
  the model).  Go `uint` ids are modelled as `Nat`; the 64-bit overflow check
  of `strconv.ParseUint` is kept explicitly where parsing matters.
* Database tables are lists of rows; a GORM transaction is modelled as a
  step-by-step computation with an injectable failure per statement, whose
  error aborts the whole transaction and leaves the caller's state unchanged
  (rollback: intermediate states are invisible after a rollback, so the model
  short-circuits).
* Strings are handled through their character lists; the Go code only ever
  manipulates ASCII here.
-/

namespace IplBeSvc

/-- Embeds `models.Billing` (internal/models/billing.go): pointer fields are
`Option`s.  The three timestamp pointers are reduced to the only fact the
services read from them, namely whether `PublishedAt` is nil;
`Locale` is never read by the core and is dropped. -/
structure Billing where
  id : Nat
  documentId : Option String
  namaBilling : Option String
  keterangan : Option String
  bulan : Option Int
  tahun : Option Int
  nominal : Option Int
  createdById : Option Nat
  updatedById : Option Nat
  published : Bool
deriving DecidableEq, Repr

/-- Embeds `models.PaymentConfig` fields read by the fee computation in
`mayarService.CreatePaymentLink` (internal/service/menu_service.go):
`PaymentFee *int64`, `IsFixedFee *bool`, `MinMonthDiscount *int`,
`MaxFee *int64`.  The admin contact fields are only used for provider-side
display and are not part of any claim. -/
structure PaymentConfig where
  paymentFee : Option Int
  isFixedFee : Option Bool
  minMonthDiscount : Option Int
  maxFee : Option Int
deriving DecidableEq, Repr

/-- The month key built in menu_service.go line 373:
`fmt.Sprintf("%d-%d", *billing.Tahun, *billing.Bulan)`, guarded by
`billing.Bulan != nil && billing.Tahun != nil`.  Decimal rendering of an
integer pair separated by `-` is injective (a minus sign can only be the
leading character of either component), so the pair itself serves as the
map key. -/
def monthKey (b : Billing) : Option (Int × Int) :=
  match b.bulan, b.tahun with
  | some m, some t => some (t, m)
  | _, _ => none

/-- The keys inserted into `monthsMap` (menu_service.go lines 370-376), with
duplicates removed as a Go map does. -/
def uniqueMonths (billings : List Billing) : List (Int × Int) :=
  (billings.filterMap monthKey).dedup

/-- `totalMonths := len(monthsMap)` (menu_service.go line 378). -/
def totalMonths (billings : List Billing) : Nat :=
  (uniqueMonths billings).length

/-- Embeds the admin-fee computation of `mayarService.CreatePaymentLink`
(internal/service/menu_service.go lines 369-410): count the distinct
(year, month) keys, default the base fee to 0 when `PaymentFee` is nil,
then branch on the fixed-fee flag, the discount threshold (default 6) and
the configured cap.  Arithmetic is read unboundedly here, mirroring the
code's own formulas branch for branch; `calculateAdminFeeI64` below
applies the Go `int64` wraparound at the one multiplication site, and
`calculateAdminFeeI64_eq_of_no_overflow` shows the two readings agree
whenever that product avoids overflow. -/
def calculateAdminFee (billings : List Billing) (cfg : PaymentConfig) : Int :=
  let n : Int := (totalMonths billings : Int)
  let basePaymentFee : Int := cfg.paymentFee.getD 0
  let isFixedFee : Bool := cfg.isFixedFee.getD false
  if isFixedFee then
    basePaymentFee
  else
    let minMonths : Int := cfg.minMonthDiscount.getD 6
    if n < minMonths then
      n * basePaymentFee
    else
      match cfg.maxFee with
      | some maxFee => maxFee
      | none => n * basePaymentFee

/-- The spec-side count of distinct (month, year) pairs among the billing
periods, written with a `Finset` cardinality independently of the Go
map-and-length implementation. -/
def distinctPeriodCount (billings : List Billing) : Nat :=
  (billings.filterMap monthKey).toFinset.card

theorem totalMonths_eq_distinctPeriodCount (billings : List Billing) :
    totalMonths billings = distinctPeriodCount billings := by
  simp [totalMonths, uniqueMonths, distinctPeriodCount, List.card_toFinset]

/-- C4: for every billing set and pricing configuration, with `n` the number
of distinct (month, year) pairs among the billings: a set fixed-fee flag
makes the admin fee the base fee; otherwise `n` below the discount threshold
(default 6) gives `n` times the base fee; otherwise the fee is the configured
cap, falling back to `n` times the base fee when no cap is configured. -/
theorem adminFee_tier_cases (billings : List Billing) (cfg : PaymentConfig) :
    (cfg.isFixedFee.getD false = true →
      calculateAdminFee billings cfg = cfg.paymentFee.getD 0) ∧
    (cfg.isFixedFee.getD false = false →
      (distinctPeriodCount billings : Int) < cfg.minMonthDiscount.getD 6 →
      calculateAdminFee billings cfg =
        (distinctPeriodCount billings : Int) * cfg.paymentFee.getD 0) ∧
    (cfg.isFixedFee.getD false = false →
      cfg.minMonthDiscount.getD 6 ≤ (distinctPeriodCount billings : Int) →
      calculateAdminFee billings cfg =
        cfg.maxFee.getD ((distinctPeriodCount billings : Int) * cfg.paymentFee.getD 0)) := by
  have hn : (totalMonths billings : Int) = (distinctPeriodCount billings : Int) := by
    rw [totalMonths_eq_distinctPeriodCount]
  refine ⟨?_, ?_, ?_⟩
  · intro hfix
    simp [calculateAdminFee, hfix]
  · intro hfix hlt
    rw [← hn] at hlt
    simp [calculateAdminFee, hfix, if_pos hlt]
    exact Or.inl (totalMonths_eq_distinctPeriodCount billings)
  · intro hfix hge
    rw [← hn] at hge
    have hnot : ¬ (totalMonths billings : Int) < cfg.minMonthDiscount.getD 6 := not_lt.mpr hge
    cases hmax : cfg.maxFee with
    | none =>
        simp [calculateAdminFee, hfix, if_neg hnot, hmax]
        exact Or.inl (totalMonths_eq_distinctPeriodCount billings)
    | some mf => simp [calculateAdminFee, hfix, if_neg hnot, hmax]

/-- A worked instance of `adminFee_tier_cases`: the spec's own examples,
base fee 20000, threshold 6.  Three distinct periods give 60000; eight
distinct periods give the 20000 cap; a fixed-fee config gives the base fee
regardless of periods. -/
theorem adminFee_tier_cases_witness :
    calculateAdminFee
        [{ id := 1, documentId := none, namaBilling := none, keterangan := none,
           bulan := some 1, tahun := some 2025, nominal := some 100000,
           createdById := none, updatedById := none, published := true },
         { id := 2, documentId := none, namaBilling := none, keterangan := none,
           bulan := some 2, tahun := some 2025, nominal := some 100000,
           createdById := none, updatedById := none, published := true },
         { id := 3, documentId := none, namaBilling := none, keterangan := none,
           bulan := some 3, tahun := some 2025, nominal := some 100000,
           createdById := none, updatedById := none, published := true }]
        { paymentFee := some 20000, isFixedFee := some false,
          minMonthDiscount := none, maxFee := some 20000 } = 60000 := by
  have h := (adminFee_tier_cases
    [{ id := 1, documentId := none, namaBilling := none, keterangan := none,
       bulan := some 1, tahun := some 2025, nominal := some 100000,
       createdById := none, updatedById := none, published := true },
     { id := 2, documentId := none, namaBilling := none, keterangan := none,
       bulan := some 2, tahun := some 2025, nominal := some 100000,
       createdById := none, updatedById := none, published := true },
     { id := 3, documentId := none, namaBilling := none, keterangan := none,
       bulan := some 3, tahun := some 2025, nominal := some 100000,
       createdById := none, updatedById := none, published := true }]
    { paymentFee := some 20000, isFixedFee := some false,
      minMonthDiscount := none, maxFee := some 20000 }).2.1 (by decide) (by decide)
  rw [h]
  decide

/-- Two's-complement wraparound of Go `int64` arithmetic: reduce an
unbounded integer into `[-2^63, 2^63)`.  The numerals are `2^63` and
`2^64`. -/
def wrapI64 (x : Int) : Int :=
  (x + 9223372036854775808) % 18446744073709551616 - 9223372036854775808

theorem wrapI64_eq_self {x : Int} (h0 : -9223372036854775808 ≤ x)
    (h1 : x < 9223372036854775808) : wrapI64 x = x := by
  rw [wrapI64, Int.emod_eq_of_lt (by omega) (by omega)]
  omega

theorem wrapI64_zero : wrapI64 0 = 0 := by decide

/-- The admin-fee computation with the defined Go `int64` wraparound
applied at its one arithmetic site,
`adminFee = int64(totalMonths) * basePaymentFee`
(menu_service.go lines 401 and 407).  The other branches return a stored
`int64` column value (`PaymentFee`, `MaxFee`) unchanged, which is already
in range, and `totalMonths` is a slice-length-bounded Go `int`, so the
conversion `int64(totalMonths)` cannot wrap. -/
def calculateAdminFeeI64 (billings : List Billing) (cfg : PaymentConfig) : Int :=
  let n : Int := (totalMonths billings : Int)
  let basePaymentFee : Int := cfg.paymentFee.getD 0
  let isFixedFee : Bool := cfg.isFixedFee.getD false
  if isFixedFee then
    basePaymentFee
  else
    let minMonths : Int := cfg.minMonthDiscount.getD 6
    if n < minMonths then
      wrapI64 (n * basePaymentFee)
    else
      match cfg.maxFee with
      | some maxFee => maxFee
      | none => wrapI64 (n * basePaymentFee)

/-- Outside the overflow regime the wrap-accurate computation and the
unbounded reading used for the tier cases coincide. -/
theorem calculateAdminFeeI64_eq_of_no_overflow (billings : List Billing)
    (cfg : PaymentConfig)
    (h0 : -9223372036854775808 ≤ (totalMonths billings : Int) * cfg.paymentFee.getD 0)
    (h1 : (totalMonths billings : Int) * cfg.paymentFee.getD 0 < 9223372036854775808) :
    calculateAdminFeeI64 billings cfg = calculateAdminFee billings cfg := by
  cases hf : cfg.isFixedFee.getD false with
  | true => simp [calculateAdminFeeI64, calculateAdminFee, hf]
  | false =>
    by_cases hlt : (totalMonths billings : Int) < cfg.minMonthDiscount.getD 6
    · simp [calculateAdminFeeI64, calculateAdminFee, hf, if_pos hlt,
        wrapI64_eq_self h0 h1]
    · cases hm : cfg.maxFee with
      | none =>
        simp [calculateAdminFeeI64, calculateAdminFee, hf, if_neg hlt, hm,
          wrapI64_eq_self h0 h1]
      | some mf =>
        simp [calculateAdminFeeI64, calculateAdminFee, hf, if_neg hlt, hm]

/-- C5 counterexample: the claim says the fee is never negative for any
billing set and pricing configuration, but a configuration with a negative
`PaymentFee` and the fixed-fee flag set yields a negative fee; moreover
even a nonnegative stored base fee of `5*10^18` with two distinct billing
periods makes the Go `int64` product `2 * 5*10^18` wrap negative. -/
theorem adminFee_negative_cx :
    calculateAdminFeeI64 []
      { paymentFee := some (-1), isFixedFee := some true,
        minMonthDiscount := none, maxFee := none } < 0 ∧
    (0 : Int) ≤ 5000000000000000000 ∧
    calculateAdminFeeI64
      [{ id := 1, documentId := none, namaBilling := none, keterangan := none,
         bulan := some 1, tahun := some 2025, nominal := some 100000,
         createdById := none, updatedById := none, published := true },
       { id := 2, documentId := none, namaBilling := none, keterangan := none,
         bulan := some 2, tahun := some 2025, nominal := some 100000,
         createdById := none, updatedById := none, published := true }]
      { paymentFee := some 5000000000000000000, isFixedFee := some false,
        minMonthDiscount := none, maxFee := none } < 0 := by
  refine ⟨by decide, by decide, by decide⟩

/-- C5 (amended): the fee computation is a pure function with no error
path; with the Go `int64` wraparound modelled, the fee is nonnegative
whenever the configured base fee and cap are nonnegative and the product
of the distinct-period count with the base fee stays below `2^63`
(no `int64` overflow); and a configuration with every field absent is
treated as a zero fee rather than a failure. -/
theorem adminFee_nonneg_of_nonneg_config (billings : List Billing)
    (cfg : PaymentConfig)
    (hbase : 0 ≤ cfg.paymentFee.getD 0)
    (hcap : ∀ mf ∈ cfg.maxFee, 0 ≤ mf)
    (hbound : (totalMonths billings : Int) * cfg.paymentFee.getD 0
      < 9223372036854775808) :
    0 ≤ calculateAdminFeeI64 billings cfg ∧
      calculateAdminFeeI64 billings
        { paymentFee := none, isFixedFee := none,
          minMonthDiscount := none, maxFee := none } = 0 := by
  have hn : (0 : Int) ≤ (totalMonths billings : Int) := Int.ofNat_nonneg _
  have hprod : 0 ≤ (totalMonths billings : Int) * cfg.paymentFee.getD 0 :=
    mul_nonneg hn hbase
  constructor
  · unfold calculateAdminFeeI64
    dsimp only []
    split
    · exact hbase
    · split
      · rw [wrapI64_eq_self (by omega) hbound]
        exact hprod
      · cases hmax : cfg.maxFee with
        | none =>
          simp only [hmax]
          rw [wrapI64_eq_self (by omega) hbound]
          exact hprod
        | some mf => simpa [hmax] using hcap mf hmax
  · unfold calculateAdminFeeI64
    simp [wrapI64_zero]

/-- A closed instance of `adminFee_nonneg_of_nonneg_config` at a concrete
configuration and billing list. -/
theorem adminFee_nonneg_witness :
    0 ≤ calculateAdminFeeI64 []
        { paymentFee := some 20000, isFixedFee := some false,
          minMonthDiscount := some 6, maxFee := some 20000 } :=
  (adminFee_nonneg_of_nonneg_config []
    { paymentFee := some 20000, isFixedFee := some false,
      minMonthDiscount := some 6, maxFee := some 20000 }
    (by decide) (by intro mf h; simp at h; omega) (by decide)).1

/-! ### Correlation codec

The encoder lives in `mayarService.CreatePaymentLink`
(internal/service/menu_service.go lines 427-433); the webhook decoder lives
in `BulkBillingHandler.ConfirmPaymentWebhook`
(internal/handler/billing_handler.go lines 248-264). -/

/-- Splitting a character list on a single separator character, the
behaviour of Go `strings.Split(s, sep)` for a one-character separator on
ASCII input: always at least one part, one part per separator occurrence. -/
def splitOnChar (sep : Char) : List Char → List (List Char)
  | [] => [[]]
  | c :: cs =>
    let rest := splitOnChar sep cs
    if c = sep then
      [] :: rest
    else
      match rest with
      | [] => [[c]]
      | p :: ps => (c :: p) :: ps

theorem splitOnChar_ne_nil (sep : Char) (l : List Char) :
    splitOnChar sep l ≠ [] := by
  induction l with
  | nil => simp [splitOnChar]
  | cons c cs ih =>
    simp only [splitOnChar]
    split
    · simp
    · cases h : splitOnChar sep cs with
      | nil => simp
      | cons p ps => simp

theorem length_splitOnChar (sep : Char) (l : List Char) :
    (splitOnChar sep l).length = l.count sep + 1 := by
  induction l with
  | nil => simp [splitOnChar]
  | cons c cs ih =>
    simp only [splitOnChar]
    by_cases h : c = sep
    · simp [h, ih, List.count_cons]
    · cases hs : splitOnChar sep cs with
      | nil => exact absurd hs (splitOnChar_ne_nil sep cs)
      | cons p ps =>
        rw [hs] at ih
        simp only [if_neg h]
        simp only [List.length_cons] at ih ⊢
        have hc : (c :: cs).count sep = cs.count sep := by
          simp [List.count_cons, h]
        rw [hc, ← ih]

theorem splitOnChar_of_not_mem {sep : Char} {l : List Char} (h : sep ∉ l) :
    splitOnChar sep l = [l] := by
  induction l with
  | nil => simp [splitOnChar]
  | cons c cs ih =>
    have hc : ¬ c = sep := fun hcs => h (hcs ▸ List.mem_cons_self c cs)
    have hcs : sep ∉ cs := fun hm => h (List.mem_cons_of_mem c hm)
    simp only [splitOnChar, if_neg hc, ih hcs]

theorem splitOnChar_append {sep : Char} {l₁ : List Char} (l₂ : List Char)
    (h : sep ∉ l₁) :
    splitOnChar sep (l₁ ++ sep :: l₂) = l₁ :: splitOnChar sep l₂ := by
  induction l₁ with
  | nil => simp [splitOnChar]
  | cons c cs ih =>
    have hc : ¬ c = sep := fun hcs => h (hcs ▸ List.mem_cons_self c cs)
    have hcs : sep ∉ cs := fun hm => h (List.mem_cons_of_mem c hm)
    simp only [List.cons_append, splitOnChar, if_neg hc]
    rw [show cs.append (sep :: l₂) = cs ++ sep :: l₂ from rfl, ih hcs]

/-- The decimal digit character for a value below 10, as produced by
`fmt.Sprintf("%d", ...)`. -/
def decDigitChar (n : Nat) : Char := Char.ofNat (48 + n)

/-- Fuel-indexed decimal rendering (most significant digit first). -/
def natToCharsCore : Nat → Nat → List Char
  | 0, _ => []
  | fuel + 1, n =>
    if n < 10 then [decDigitChar n]
    else natToCharsCore fuel (n / 10) ++ [decDigitChar (n % 10)]

/-- Decimal rendering of a `Nat`, the model of Go `fmt.Sprintf("%d", id)`
for the unsigned ids joined into the correlation string. -/
def natToChars (n : Nat) : List Char := natToCharsCore (n + 1) n

/-- Value of a digit character. -/
def digitVal (c : Char) : Nat := c.toNat - 48

/-- Value of a most-significant-first digit string, as accumulated by
`strconv.ParseUint`. -/
def digitsToNat (l : List Char) : Nat :=
  l.foldl (fun acc c => acc * 10 + digitVal c) 0

/-- The whitespace skipped by `fmt.Sscanf` before a `%d` verb.  A newline is
not skipped (Sscanf treats it as an error), and since it is also not a
digit, leaving it out of this set gives the same accept/reject behaviour. -/
def isSscanfSpace (c : Char) : Bool :=
  c = ' ' || c = '\t' || c.toNat = 11 || c.toNat = 12 || c = '\r'

/-- Embeds `fmt.Sscanf(idStr, "%d", &id)` with `id` a Go `uint`
(billing_handler.go line 257): skip leading spaces, require at least one
decimal digit, consume the maximal digit run (any trailing characters are
left unread and ignored, because the format string ends after `%d`), and
fail on 64-bit overflow as `strconv.ParseUint` does. -/
def sscanfUint (tok : List Char) : Option Nat :=
  let rest := tok.dropWhile isSscanfSpace
  let ds := rest.takeWhile Char.isDigit
  if ds.isEmpty then none
  else if 2 ^ 64 ≤ digitsToNat ds then none
  else some (digitsToNat ds)

/-- The loop of billing_handler.go lines 255-264: parse every token,
rejecting the whole list on the first failure. -/
def parseIdTokens : List (List Char) → Option (List Nat)
  | [] => some []
  | t :: ts =>
    match sscanfUint t, parseIdTokens ts with
    | some v, some vs => some (v :: vs)
    | _, _ => none

/-- Outcome of running the webhook decoder on an invoice-number string. -/
inductive DecodeResult where
  | panicOutOfRange : DecodeResult
  | parseFailure : DecodeResult
  | ok : List Nat → DecodeResult
deriving DecidableEq, Repr

/-- Embeds billing_handler.go lines 250-264:
`invoice := strings.Split(req.Order.InvoiceNumber, "-")[2]` (a Go runtime
panic when the split has fewer than three parts), then
`listId := strings.Split(invoice, ",")` and an `fmt.Sscanf` per token, any
failure rejecting the webhook. -/
def decodeInvoiceNumber (invoiceNumber : String) : DecodeResult :=
  let parts := splitOnChar '-' invoiceNumber.data
  match parts[2]? with
  | none => .panicOutOfRange
  | some invoice =>
    match parseIdTokens (splitOnChar ',' invoice) with
    | none => .parseFailure
    | some ids => .ok ids

/-- Go `strings.Join(parts, sep)`. -/
def joinWith (sep : List Char) : List (List Char) → List Char
  | [] => []
  | [p] => p
  | p :: ps => p ++ sep ++ joinWith sep ps

/-- The comma-joined billing-id string built for the provider description in
`paymentService.CreatePaymentLinkMultiple` (menu_service.go lines 224-230):
`fmt.Sprintf("%d", id)` per id, joined with `","`. -/
def billingIDsString (ids : List Nat) : String :=
  ⟨joinWith [','] (ids.map natToChars)⟩

/-- `strings.Join(listDocumentIDs, ", ")` (menu_service.go line 233). -/
def documentIDsString (docs : List String) : String :=
  ⟨joinWith [',', ' '] (docs.map String.data)⟩

/-- Embeds the product-description encoder in `mayarService.CreatePaymentLink`
(menu_service.go lines 427-433): the id list, a space, and a parenthesised
`DocumentID:` section holding the document ids or `N/A`. -/
def encodeProductDescription (billingIDsStr documentIDs : String) : String :=
  if documentIDs ≠ "" then
    billingIDsStr ++ " (DocumentID: " ++ documentIDs ++ ")"
  else
    billingIDsStr ++ " (DocumentID: N/A)"

/-- Embeds the invoice number built for the DOKU checkout request
(payment_service.go line 311): `fmt.Sprintf("INV-%d-%s", unixTime, desc)`. -/
def dokuInvoiceNumber (unixTime : Nat) (description : String) : String :=
  "INV-" ++ ⟨natToChars unixTime⟩ ++ "-" ++ description

/-! ### Payment reconciliation -/

/-- Row of `billings_master_general_status_lnk` as used by the service code
(column `t_billing_id`, column `master_general_status_id`); the struct is
declared outside the provided sources but both fields are fixed by every
query issued against it in billing_service.go. -/
structure BillingStatusBillLink where
  billingId : Nat
  masterGeneralStatusId : Nat
deriving DecidableEq, Repr

/-- The hardcoded "Paid" status id written by `billingService.ConfirmPayment`
(billing_service.go line 913, under the comment "mark billings as paid"). -/
def paidStatusId : Nat := 6

/-- The transaction body of `billingService.ConfirmPayment`
(billing_service.go lines 905-917): one
`UPDATE ... SET master_general_status_id = 6 WHERE t_billing_id = id`
statement per requested id, in order. -/
def confirmPaymentTx (listIds : List Nat)
    (links : List BillingStatusBillLink) : List BillingStatusBillLink :=
  listIds.foldl
    (fun acc id =>
      acc.map fun l =>
        if l.billingId = id then { l with masterGeneralStatusId := paidStatusId } else l)
    links

/-- `billingService.ConfirmPayment` (billing_service.go lines 903-927): the
updates run inside one transaction; a database failure on any statement
(injected here as `dbFail`) aborts and rolls back the whole transaction, so
the caller observes either all updates or none. -/
def confirmPayment (dbFail : Option String) (listIds : List Nat)
    (links : List BillingStatusBillLink) :
    Except String (List BillingStatusBillLink) :=
  match dbFail with
  | some e => .error ("failed to update billing status links: " ++ e)
  | none => .ok (confirmPaymentTx listIds links)

/-- The HTTP outcome of the webhook handler. -/
inductive WebhookOutcome where
  | panicked : WebhookOutcome
  | badRequest : WebhookOutcome
  | internalServerError : WebhookOutcome
  | success : WebhookOutcome
deriving DecidableEq, Repr

/-- Embeds `BulkBillingHandler.ConfirmPaymentWebhook`
(billing_handler.go lines 248-273) from the invoice-number extraction
onward: decode the id list, reject the request on a parse failure before
any reconciliation, otherwise call `ConfirmPayment` and report its result.
The pair carries the status-link table so that "nothing was reconciled" is
visible in the outcome. -/
def confirmPaymentWebhook (invoiceNumber : String) (dbFail : Option String)
    (links : List BillingStatusBillLink) :
    WebhookOutcome × List BillingStatusBillLink :=
  match decodeInvoiceNumber invoiceNumber with
  | .panicOutOfRange => (.panicked, links)
  | .parseFailure => (.badRequest, links)
  | .ok ids =>
    match confirmPayment dbFail ids links with
    | .error _ => (.internalServerError, links)
    | .ok links2 => (.success, links2)

/-- Pointwise effect of reconciling a set of ids on one status-link row. -/
def setPaidIfMem (ids : List Nat) (l : BillingStatusBillLink) :
    BillingStatusBillLink :=
  if l.billingId ∈ ids then { l with masterGeneralStatusId := paidStatusId } else l

theorem confirmPaymentTx_eq_map (ids : List Nat)
    (links : List BillingStatusBillLink) :
    confirmPaymentTx ids links = links.map (setPaidIfMem ids) := by
  induction ids generalizing links with
  | nil =>
    show links = links.map (setPaidIfMem [])
    rw [show setPaidIfMem [] = id from funext fun l => by simp [setPaidIfMem], List.map_id]
  | cons id ids ih =>
    show confirmPaymentTx ids (links.map _) = _
    rw [ih, List.map_map]
    apply List.map_congr_left
    intro l _
    by_cases h : l.billingId = id
    · by_cases h2 : l.billingId ∈ ids <;>
        simp [setPaidIfMem, Function.comp, h, h2, List.mem_cons]
    · by_cases h2 : l.billingId ∈ ids <;>
        simp [setPaidIfMem, Function.comp, h, h2, List.mem_cons]

theorem setPaidIfMem_idem (ids : List Nat) (l : BillingStatusBillLink) :
    setPaidIfMem ids (setPaidIfMem ids l) = setPaidIfMem ids l := by
  by_cases h : l.billingId ∈ ids <;> simp [setPaidIfMem, h]

/-- C8: reconciliation is idempotent in effect.  Applying the
confirm-payment transaction a second time to the same id list returns
success and leaves the status links exactly as after the first application,
and after it every link whose billing id was referenced carries the "Paid"
status. -/
theorem confirmPayment_idempotent (ids : List Nat)
    (links : List BillingStatusBillLink) :
    confirmPayment none ids (confirmPaymentTx ids links) =
      Except.ok (confirmPaymentTx ids links) ∧
    ∀ l ∈ confirmPaymentTx ids links,
      l.billingId ∈ ids → l.masterGeneralStatusId = paidStatusId := by
  constructor
  · show Except.ok (confirmPaymentTx ids (confirmPaymentTx ids links)) = _
    rw [confirmPaymentTx_eq_map, confirmPaymentTx_eq_map, List.map_map]
    congr 1
    apply List.map_congr_left
    intro l _
    exact setPaidIfMem_idem ids l
  · intro l hl hmem
    rw [confirmPaymentTx_eq_map] at hl
    obtain ⟨m, _, rfl⟩ := List.mem_map.mp hl
    by_cases h : m.billingId ∈ ids
    · simp [setPaidIfMem, h]
    · rw [setPaidIfMem, if_neg h] at hmem ⊢
      exact absurd hmem h

/-- A closed instance of `confirmPayment_idempotent`: one link for billing 1
in status 5, reconciled twice with id list `[1]`. -/
theorem confirmPayment_idempotent_witness :
    confirmPayment none [1]
        (confirmPaymentTx [1] [{ billingId := 1, masterGeneralStatusId := 5 }]) =
      Except.ok (confirmPaymentTx [1] [{ billingId := 1, masterGeneralStatusId := 5 }]) ∧
    ({ billingId := 1, masterGeneralStatusId := 6 } :
        BillingStatusBillLink).masterGeneralStatusId = paidStatusId :=
  ⟨(confirmPayment_idempotent [1] [{ billingId := 1, masterGeneralStatusId := 5 }]).1,
   (confirmPayment_idempotent [1] [{ billingId := 1, masterGeneralStatusId := 5 }]).2
     { billingId := 1, masterGeneralStatusId := 6 } (by decide) (by decide)⟩

/-- C10: confirm-payment accepts ids that match no status-link row; a list
of entirely unknown ids updates nothing and still returns success. -/
theorem confirmPayment_unknown_ids_noop (ids : List Nat)
    (links : List BillingStatusBillLink)
    (h : ∀ l ∈ links, l.billingId ∉ ids) :
    confirmPayment none ids links = Except.ok links := by
  show Except.ok (confirmPaymentTx ids links) = _
  rw [confirmPaymentTx_eq_map]
  congr 1
  have : ∀ l ∈ links, setPaidIfMem ids l = l := by
    intro l hl
    rw [setPaidIfMem, if_neg (h l hl)]
  rw [List.map_congr_left this]
  exact List.map_id links

/-- A closed instance of `confirmPayment_unknown_ids_noop`: reconciling id
99 against a table that only holds billing 1 returns success and changes
nothing. -/
theorem confirmPayment_unknown_ids_noop_witness :
    confirmPayment none [99] [{ billingId := 1, masterGeneralStatusId := 5 }] =
      Except.ok [{ billingId := 1, masterGeneralStatusId := 5 }] :=
  confirmPayment_unknown_ids_noop [99]
    [{ billingId := 1, masterGeneralStatusId := 5 }] (by decide)

/-- C9: the handler indexes element 2 of the dash-split invoice number
unconditionally, so any webhook whose invoice number contains fewer than two
`-` characters panics (index out of range) instead of being answered with a
rejection response. -/
theorem webhook_panics_when_fewer_than_two_dashes (s : String)
    (dbFail : Option String) (links : List BillingStatusBillLink)
    (h : s.data.count '-' < 2) :
    confirmPaymentWebhook s dbFail links = (.panicked, links) := by
  have hlen : (splitOnChar '-' s.data).length ≤ 2 := by
    rw [length_splitOnChar]
    omega
  have hidx : (splitOnChar '-' s.data)[2]? = none := by
    exact List.getElem?_eq_none hlen
  rw [confirmPaymentWebhook, decodeInvoiceNumber]
  rw [hidx]

/-- A closed instance of `webhook_panics_when_fewer_than_two_dashes`: the
invoice number `INV-1766570879` has one dash and panics the handler. -/
theorem webhook_panics_witness :
    (String.data "INV-1766570879").count '-' < 2 ∧
    confirmPaymentWebhook "INV-1766570879" none [] = (.panicked, []) :=
  ⟨by decide, webhook_panics_when_fewer_than_two_dashes "INV-1766570879" none [] (by decide)⟩

/-- C3 counterexample: the token `12x` is not a decimal numeral, yet the
webhook is not rejected: `fmt.Sscanf` reads the maximal digit prefix, so
`INV-0-12x` decodes to `[12]` and billing 12 is reconciled. -/
theorem nonNumericToken_accepted_cx :
    (String.data "12x").all Char.isDigit = false ∧
    decodeInvoiceNumber "INV-0-12x" = .ok [12] ∧
    confirmPaymentWebhook "INV-0-12x" none
        [{ billingId := 12, masterGeneralStatusId := 5 }] =
      (.success, [{ billingId := 12, masterGeneralStatusId := 6 }]) := by
  refine ⟨by decide, by decide, by decide⟩

theorem parseIdTokens_eq_none_of_mem {ts : List (List Char)} {tok : List Char}
    (hmem : tok ∈ ts) (hfail : sscanfUint tok = none) :
    parseIdTokens ts = none := by
  induction ts with
  | nil => cases hmem
  | cons t ts ih =>
    rw [List.mem_cons] at hmem
    rcases hmem with rfl | hmem
    · rw [parseIdTokens, hfail]
    · rw [parseIdTokens, ih hmem]
      cases sscanfUint t <;> rfl

/-- C3 (amended): the decoder takes the third dash-separated field of the
invoice number as the id portion, splits it on commas and scans each token
with `%d`; any token whose text (after `Sscanf` space-skipping) does not
start with a decimal digit makes the whole webhook fail with a parse error
before anything is reconciled.  (A token that merely has trailing
non-numeric characters after a digit prefix is accepted, see the
counterexample; the split also never yields an empty token list, an empty
id portion producing one empty — hence rejected — token.) -/
theorem webhook_rejects_tokens_without_leading_digit (s : String)
    (dbFail : Option String) (links : List BillingStatusBillLink)
    (invoice : List Char)
    (hpart : (splitOnChar '-' s.data)[2]? = some invoice)
    (hbad : ∃ tok ∈ splitOnChar ',' invoice,
      ((tok.dropWhile isSscanfSpace).takeWhile Char.isDigit).isEmpty = true) :
    splitOnChar ',' invoice ≠ [] ∧
    confirmPaymentWebhook s dbFail links = (.badRequest, links) := by
  refine ⟨splitOnChar_ne_nil ',' invoice, ?_⟩
  obtain ⟨tok, htok, hempty⟩ := hbad
  have hfail : sscanfUint tok = none := by
    rw [sscanfUint]
    simp only [hempty]
    rfl
  have hparse := parseIdTokens_eq_none_of_mem htok hfail
  rw [confirmPaymentWebhook, decodeInvoiceNumber]
  rw [hpart]
  simp only [hparse]

/-- A closed instance of `webhook_rejects_tokens_without_leading_digit`: the
invoice number `INV-0-12,ab` carries the non-numeric token `ab` and the
webhook is rejected with a parse error, reconciling nothing. -/
theorem webhook_rejects_witness :
    confirmPaymentWebhook "INV-0-12,ab" none
        [{ billingId := 12, masterGeneralStatusId := 5 }] =
      (.badRequest, [{ billingId := 12, masterGeneralStatusId := 5 }]) :=
  (webhook_rejects_tokens_without_leading_digit "INV-0-12,ab" none
    [{ billingId := 12, masterGeneralStatusId := 5 }]
    (String.data "12,ab") (by decide)
    ⟨String.data "ab", by decide, by decide⟩).2

/-- C2 (code bug): the encoded correlation description does not survive the
decoder that the shipped webhook handler actually runs.  The handler splits
`order.invoice_number` on `-` and indexes element 2 (the pre-migration DOKU
format `INV-<unix>-<ids>`), while the encoder and the repository's own
WEBHOOK_TESTING.md place the ids before a ` (DocumentID: ...)` suffix in the
product description.  Feeding the encoded text of ids `[1372, 67]` with
document ids `monthly-a, monthly-b` to the decoder yields a parse failure,
and the `N/A` form (no document ids) makes the handler panic — in both
cases the documented round-trip result `[1372, 67]` is not recovered. -/
theorem decode_of_encoded_description_fails :
    decodeInvoiceNumber
        (encodeProductDescription (billingIDsString [1372, 67])
          (documentIDsString ["monthly-a", "monthly-b"])) = .parseFailure ∧
    decodeInvoiceNumber
        (encodeProductDescription (billingIDsString [1372, 67])
          (documentIDsString [])) = .panicOutOfRange := by
  refine ⟨by decide, by decide⟩

/-! ### Billing batch generation

Embeds `billingService.CreateBulkMonthlyBillings`
(internal/service/billing_service.go lines 513-687) from the point where its
collaborator queries have produced the default status, the monthly settings
and the user cohort; those queries are environment inputs here.  The
document-id generator `uuid.New()` is modelled as an injected function from
the row index. -/

/-- Embeds the fields of `models.SettingBilling` consumed by the bulk
creation loop.  `Nominal` is a Go `float64` converted by
`int64(setting.Nominal)`; the model carries the already-truncated integer.
`published` stands for `PublishedAt != nil`. -/
structure SettingBilling where
  namaBilling : String
  keterangan : String
  nominal : Int
  published : Bool
deriving DecidableEq, Repr

/-- Row of `billings_profile_id_lnk` (internal/models/billing_profile_link.go):
column `t_billing_id` and column `user_id` (the service stores the user id
directly as `ProfileID`). -/
structure BillingProfileLink where
  billingId : Nat
  profileId : Nat
deriving DecidableEq, Repr

/-- Row of the billing/kategori-transaksi link table; both fields are fixed
by the inserts in billing_service.go lines 629-633. -/
structure BillingKategoriTransaksiLink where
  billingId : Nat
  masterKategoriTransaksiId : Nat
deriving DecidableEq, Repr

/-- The relational state touched by batch generation: the billing table with
its auto-increment counter and the three link tables. -/
structure DBState where
  nextBillingId : Nat
  billings : List Billing
  profileLinks : List BillingProfileLink
  statusLinks : List BillingStatusBillLink
  kategoriLinks : List BillingKategoriTransaksiLink
deriving DecidableEq, Repr

/-- Failure injection for the four insert statements of the transaction
(billing_service.go lines 643-679): `some msg` makes the corresponding
`CreateInBatches` fail with the database error `msg`. -/
structure TxFail where
  onBillings : Option String
  onProfileLinks : Option String
  onStatusLinks : Option String
  onKategoriLinks : Option String
deriving DecidableEq, Repr

/-- No insert statement of the transaction fails. -/
def txClean (tf : TxFail) : Prop :=
  tf.onBillings = none ∧ tf.onProfileLinks = none ∧
    tf.onStatusLinks = none ∧ tf.onKategoriLinks = none

instance (tf : TxFail) : Decidable (txClean tf) := by
  unfold txClean
  infer_instance

/-- The (user, setting) pairs walked by the nested loops of
billing_service.go lines 573-635; the inner loop `continue`s on settings
whose `PublishedAt` is nil, which is the filter below. -/
def cohortPairs (users : List Nat) (settings : List SettingBilling) :
    List (Nat × SettingBilling) :=
  users.flatMap fun u => (settings.filter fun s => s.published).map fun s => (u, s)

/-- One in-memory billing row (billing_service.go lines 580-611): id 0 until
the insert assigns it, document id `"monthly-" ++ uuid`, name/note copied
from the setting, the requested period, the truncated nominal, admin user 1
as creator and updater, and a non-nil `PublishedAt` (the setting is
published, so `billingPublishedAt = &now`). -/
def buildBilling (uuids : Nat → String) (month year : Int) (i : Nat)
    (s : SettingBilling) : Billing :=
  { id := 0,
    documentId := some ("monthly-" ++ uuids i),
    namaBilling := some s.namaBilling,
    keterangan := some s.keterangan,
    bulan := some month,
    tahun := some year,
    nominal := some s.nominal,
    createdById := some 1,
    updatedById := some 1,
    published := true }

def buildBillings (uuids : Nat → String) (month year : Int)
    (rows : List (Nat × SettingBilling)) : List Billing :=
  rows.enum.map fun p => buildBilling uuids month year p.1 p.2.2

/-- Profile links as first built (billing_service.go lines 614-619): billing
id still 0, `ProfileID` the user id. -/
def buildProfileLinks (rows : List (Nat × SettingBilling)) :
    List BillingProfileLink :=
  rows.map fun p => { billingId := 0, profileId := p.1 }

/-- Status links as first built (lines 621-626): default status id. -/
def buildStatusLinks (statusId : Nat) (rows : List (Nat × SettingBilling)) :
    List BillingStatusBillLink :=
  rows.map fun _ => { billingId := 0, masterGeneralStatusId := statusId }

/-- Kategori links as first built (lines 628-633): fixed category id 1. -/
def buildKategoriLinks (rows : List (Nat × SettingBilling)) :
    List BillingKategoriTransaksiLink :=
  rows.map fun _ => { billingId := 0, masterKategoriTransaksiId := 1 }

/-- Inserting billings assigns consecutive auto-increment ids, the model of
`tx.CreateInBatches(billings, 100)` (chunking does not change the rows
written). -/
def insertBillings (db : DBState) (rows : List Billing) : DBState × List Nat :=
  let ids := List.range' db.nextBillingId rows.length
  let persisted := (rows.zip ids).map fun p => { p.1 with id := p.2 }
  ({ db with
      billings := db.billings ++ persisted,
      nextBillingId := db.nextBillingId + rows.length }, ids)

/-- The backfill loop of billing_service.go lines 650-660, which copies the
i-th generated billing id into the i-th row of each link slice. -/
def backfillProfile (ids : List Nat) (links : List BillingProfileLink) :
    List BillingProfileLink :=
  (ids.zip links).map fun p => { p.2 with billingId := p.1 }

def backfillStatus (ids : List Nat) (links : List BillingStatusBillLink) :
    List BillingStatusBillLink :=
  (ids.zip links).map fun p => { p.2 with billingId := p.1 }

def backfillKategori (ids : List Nat)
    (links : List BillingKategoriTransaksiLink) :
    List BillingKategoriTransaksiLink :=
  (ids.zip links).map fun p => { p.2 with billingId := p.1 }

/-- The transaction body of billing_service.go lines 643-679: insert the
billings, backfill the link foreign keys from the generated ids, insert the
three link slices; the first failing statement aborts the transaction with
its wrapped error, and a rollback leaves the caller's state untouched, so
the model short-circuits to the error. -/
def runBulkTx (db : DBState) (tf : TxFail) (newBillings : List Billing)
    (profileLinks0 : List BillingProfileLink)
    (statusLinks0 : List BillingStatusBillLink)
    (kategoriLinks0 : List BillingKategoriTransaksiLink) :
    Except String DBState :=
  match tf.onBillings with
  | some e => .error ("failed to create billings: " ++ e)
  | none =>
    let inserted := insertBillings db newBillings
    let db1 := inserted.1
    let ids := inserted.2
    match tf.onProfileLinks with
    | some e => .error ("failed to create billing profile links: " ++ e)
    | none =>
      match tf.onStatusLinks with
      | some e => .error ("failed to create billing status bill links: " ++ e)
      | none =>
        match tf.onKategoriLinks with
        | some e => .error ("failed to create billing kategori transaksi links: " ++ e)
        | none =>
          .ok { db1 with
            profileLinks := db1.profileLinks ++ backfillProfile ids profileLinks0,
            statusLinks := db1.statusLinks ++ backfillStatus ids statusLinks0,
            kategoriLinks := db1.kategoriLinks ++ backfillKategori ids kategoriLinks0 }

/-- `BulkBillingResponse` (billing_service.go lines 491-497). -/
structure BulkBillingResponse where
  totalUsers : Nat
  totalBillings : Nat
  successCount : Nat
  failedCount : Nat
  errors : List String
deriving DecidableEq, Repr

/-- Embeds `billingService.CreateBulkMonthlyBillings` from line 534 on: an
empty settings list is a hard error; an empty cohort returns the zero-filled
response without touching the database; otherwise the rows are built and the
transaction run, a transaction error being converted into a structured
response (success 0, the whole batch failed, the first error message
captured) returned with a nil Go error. -/
def createBulkMonthlyBillings (users : List Nat)
    (settings : List SettingBilling) (statusId : Nat) (month year : Int)
    (uuids : Nat → String) (db : DBState) (tf : TxFail) :
    Except String (BulkBillingResponse × DBState) :=
  if settings.isEmpty then
    .error "no active monthly setting billings found"
  else if users.isEmpty then
    .ok ({ totalUsers := 0, totalBillings := 0, successCount := 0,
           failedCount := 0, errors := [] }, db)
  else
    match runBulkTx db tf
        (buildBillings uuids month year (cohortPairs users settings))
        (buildProfileLinks (cohortPairs users settings))
        (buildStatusLinks statusId (cohortPairs users settings))
        (buildKategoriLinks (cohortPairs users settings)) with
    | .ok db2 =>
      .ok ({ totalUsers := users.length,
             totalBillings := (cohortPairs users settings).length,
             successCount := (cohortPairs users settings).length,
             failedCount := 0, errors := [] }, db2)
    | .error e =>
      .ok ({ totalUsers := users.length,
             totalBillings := (cohortPairs users settings).length,
             successCount := 0,
             failedCount := (cohortPairs users settings).length,
             errors := [e] }, db)

theorem length_cohortPairs (users : List Nat) (settings : List SettingBilling) :
    (cohortPairs users settings).length =
      users.length * (settings.filter fun s => s.published).length := by
  induction users with
  | nil => simp [cohortPairs]
  | cons u us ih =>
    simp only [cohortPairs, List.flatMap_cons, List.length_append,
      List.length_map, List.length_cons] at ih ⊢
    rw [ih, Nat.succ_mul, Nat.add_comm]

theorem length_buildBillings (uuids : Nat → String) (month year : Int)
    (rows : List (Nat × SettingBilling)) :
    (buildBillings uuids month year rows).length = rows.length := by
  simp [buildBillings, List.enum_length]

/-- The error message of the first failing insert statement, as wrapped by
the `fmt.Errorf` calls inside the transaction closure. -/
def firstTxError (tf : TxFail) : Option String :=
  match tf.onBillings with
  | some e => some ("failed to create billings: " ++ e)
  | none =>
    match tf.onProfileLinks with
    | some e => some ("failed to create billing profile links: " ++ e)
    | none =>
      match tf.onStatusLinks with
      | some e => some ("failed to create billing status bill links: " ++ e)
      | none =>
        match tf.onKategoriLinks with
        | some e => some ("failed to create billing kategori transaksi links: " ++ e)
        | none => none

theorem runBulkTx_clean (db : DBState) (tf : TxFail) (hc : txClean tf)
    (nb : List Billing) (pl : List BillingProfileLink)
    (sl : List BillingStatusBillLink)
    (kl : List BillingKategoriTransaksiLink) :
    runBulkTx db tf nb pl sl kl = .ok
      { nextBillingId := db.nextBillingId + nb.length,
        billings := db.billings ++
          (nb.zip (List.range' db.nextBillingId nb.length)).map
            (fun p => { p.1 with id := p.2 }),
        profileLinks := db.profileLinks ++
          backfillProfile (List.range' db.nextBillingId nb.length) pl,
        statusLinks := db.statusLinks ++
          backfillStatus (List.range' db.nextBillingId nb.length) sl,
        kategoriLinks := db.kategoriLinks ++
          backfillKategori (List.range' db.nextBillingId nb.length) kl } := by
  obtain ⟨h1, h2, h3, h4⟩ := hc
  rw [runBulkTx, h1, h2, h3, h4]
  rfl

theorem runBulkTx_error (db : DBState) (tf : TxFail) (nb : List Billing)
    (pl : List BillingProfileLink) (sl : List BillingStatusBillLink)
    (kl : List BillingKategoriTransaksiLink) (e : String)
    (h : firstTxError tf = some e) :
    runBulkTx db tf nb pl sl kl = .error e := by
  cases h1 : tf.onBillings with
  | some e1 =>
    rw [firstTxError, h1] at h
    rw [runBulkTx, h1]
    injection h with h
    rw [← h]
  | none =>
    cases h2 : tf.onProfileLinks with
    | some e2 =>
      rw [firstTxError, h1, h2] at h
      rw [runBulkTx, h1, h2]
      injection h with h
      rw [← h]
    | none =>
      cases h3 : tf.onStatusLinks with
      | some e3 =>
        rw [firstTxError, h1, h2, h3] at h
        rw [runBulkTx, h1, h2, h3]
        injection h with h
        rw [← h]
      | none =>
        cases h4 : tf.onKategoriLinks with
        | some e4 =>
          rw [firstTxError, h1, h2, h3, h4] at h
          rw [runBulkTx, h1, h2, h3, h4]
          injection h with h
          rw [← h]
        | none =>
          rw [firstTxError, h1, h2, h3, h4] at h
          cases h

theorem firstTxError_of_not_clean (tf : TxFail) (h : ¬ txClean tf) :
    ∃ e, firstTxError tf = some e := by
  cases h1 : tf.onBillings with
  | some e1 => exact ⟨_, by rw [firstTxError, h1]⟩
  | none =>
    cases h2 : tf.onProfileLinks with
    | some e2 => exact ⟨_, by rw [firstTxError, h1, h2]⟩
    | none =>
      cases h3 : tf.onStatusLinks with
      | some e3 => exact ⟨_, by rw [firstTxError, h1, h2, h3]⟩
      | none =>
        cases h4 : tf.onKategoriLinks with
        | some e4 => exact ⟨_, by rw [firstTxError, h1, h2, h3, h4]⟩
        | none => exact absurd ⟨h1, h2, h3, h4⟩ h

theorem map_id_inserted (nb : List Billing) (ids : List Nat)
    (h : ids.length ≤ nb.length) :
    ((nb.zip ids).map fun p => { p.1 with id := p.2 }).map Billing.id = ids := by
  rw [List.map_map]
  exact List.map_snd_zip nb ids h

theorem map_billingId_backfillProfile (ids : List Nat)
    (links : List BillingProfileLink) (h : ids.length ≤ links.length) :
    (backfillProfile ids links).map BillingProfileLink.billingId = ids := by
  rw [backfillProfile, List.map_map]
  exact List.map_fst_zip ids links h

theorem map_billingId_backfillStatus (ids : List Nat)
    (links : List BillingStatusBillLink) (h : ids.length ≤ links.length) :
    (backfillStatus ids links).map BillingStatusBillLink.billingId = ids := by
  rw [backfillStatus, List.map_map]
  exact List.map_fst_zip ids links h

theorem map_billingId_backfillKategori (ids : List Nat)
    (links : List BillingKategoriTransaksiLink) (h : ids.length ≤ links.length) :
    (backfillKategori ids links).map BillingKategoriTransaksiLink.billingId = ids := by
  rw [backfillKategori, List.map_map]
  exact List.map_fst_zip ids links h

/-- C1: a batch run for a cohort of `k` residents against `m` published
monthly definitions that returns a result (it always does once its inputs
are fetched) is all-or-nothing: with no insert failure, exactly `k*m`
billing rows and `k*m` rows of each of the three link kinds are added, the
i-th new row of every link kind carrying the id of the i-th new billing;
with any insert failure, the database is exactly as before and the reported
success count is zero. -/
theorem bulkMonthly_atomic_fanout (users : List Nat)
    (settings : List SettingBilling) (statusId : Nat) (month year : Int)
    (uuids : Nat → String) (db : DBState) (tf : TxFail)
    (resp : BulkBillingResponse) (db2 : DBState)
    (h : createBulkMonthlyBillings users settings statusId month year uuids db tf
      = .ok (resp, db2)) :
    (txClean tf →
      (db2.billings.length = db.billings.length +
          users.length * (settings.filter fun s => s.published).length ∧
       db2.profileLinks.length = db.profileLinks.length +
          users.length * (settings.filter fun s => s.published).length ∧
       db2.statusLinks.length = db.statusLinks.length +
          users.length * (settings.filter fun s => s.published).length ∧
       db2.kategoriLinks.length = db.kategoriLinks.length +
          users.length * (settings.filter fun s => s.published).length) ∧
      ((db2.profileLinks.drop db.profileLinks.length).map
          BillingProfileLink.billingId =
        (db2.billings.drop db.billings.length).map Billing.id ∧
       (db2.statusLinks.drop db.statusLinks.length).map
          BillingStatusBillLink.billingId =
        (db2.billings.drop db.billings.length).map Billing.id ∧
       (db2.kategoriLinks.drop db.kategoriLinks.length).map
          BillingKategoriTransaksiLink.billingId =
        (db2.billings.drop db.billings.length).map Billing.id)) ∧
    (¬ txClean tf → db2 = db ∧ resp.successCount = 0) := by
  by_cases hs : settings.isEmpty
  · rw [createBulkMonthlyBillings, if_pos hs] at h
    cases h
  by_cases hu : users.isEmpty
  · rw [createBulkMonthlyBillings, if_neg hs, if_pos hu] at h
    simp only [Except.ok.injEq, Prod.mk.injEq] at h
    obtain ⟨hresp, hdb⟩ := h
    have hulen : users.length = 0 := by
      rw [List.isEmpty_iff] at hu
      simp [hu]
    subst hdb
    constructor
    · intro _
      refine ⟨⟨by simp [hulen], by simp [hulen], by simp [hulen], by simp [hulen]⟩,
        ?_, ?_, ?_⟩ <;> simp [List.drop_length]
    · intro _
      exact ⟨rfl, by rw [← hresp]⟩
  · rw [createBulkMonthlyBillings, if_neg hs, if_neg hu] at h
    constructor
    · intro hc
      rw [runBulkTx_clean db tf hc] at h
      simp only [Except.ok.injEq, Prod.mk.injEq] at h
      obtain ⟨hresp, hdb⟩ := h
      subst hdb
      have hnb : (buildBillings uuids month year (cohortPairs users settings)).length
          = (cohortPairs users settings).length := length_buildBillings _ _ _ _
      have hids : (List.range' db.nextBillingId
          (buildBillings uuids month year (cohortPairs users settings)).length).length
          = (cohortPairs users settings).length := by
        rw [List.length_range', hnb]
      have hkm : (cohortPairs users settings).length =
          users.length * (settings.filter fun s => s.published).length :=
        length_cohortPairs users settings
      refine ⟨⟨?_, ?_, ?_, ?_⟩, ?_, ?_, ?_⟩
      · simp only [List.length_append, List.length_map, List.length_zip, hids, hnb,
          List.length_range', min_self, hkm]
      · simp only [List.length_append, backfillProfile, List.length_map,
          List.length_zip, hids, buildProfileLinks, hkm, min_self, List.length_range', hnb]
      · simp only [List.length_append, backfillStatus, List.length_map,
          List.length_zip, hids, buildStatusLinks, hkm, min_self, List.length_range', hnb]
      · simp only [List.length_append, backfillKategori, List.length_map,
          List.length_zip, hids, buildKategoriLinks, hkm, min_self, List.length_range', hnb]
      · rw [List.drop_left, List.drop_left,
          map_billingId_backfillProfile _ _ (by simp [hids, buildProfileLinks, hnb]),
          map_id_inserted _ _ (by rw [List.length_range'])]
      · rw [List.drop_left, List.drop_left,
          map_billingId_backfillStatus _ _ (by simp [hids, buildStatusLinks, hnb]),
          map_id_inserted _ _ (by rw [List.length_range'])]
      · rw [List.drop_left, List.drop_left,
          map_billingId_backfillKategori _ _ (by simp [hids, buildKategoriLinks, hnb]),
          map_id_inserted _ _ (by rw [List.length_range'])]
    · intro hnc
      obtain ⟨e, he⟩ := firstTxError_of_not_clean tf hnc
      rw [runBulkTx_error db tf _ _ _ _ e he] at h
      simp only [Except.ok.injEq, Prod.mk.injEq] at h
      obtain ⟨hresp, hdb⟩ := h
      exact ⟨hdb.symm, by rw [← hresp]⟩

/-- Demo inputs shared by the batch-generation witnesses. -/
def demoSetting : SettingBilling :=
  { namaBilling := "IPL", keterangan := "note", nominal := 100000, published := true }

def demoEmptyDB : DBState :=
  { nextBillingId := 1, billings := [], profileLinks := [],
    statusLinks := [], kategoriLinks := [] }

def demoCleanTx : TxFail :=
  { onBillings := none, onProfileLinks := none,
    onStatusLinks := none, onKategoriLinks := none }

/-- The database state after the demo run: resident 7 billed once against
`demoSetting`, billing id 1 assigned, one link row of each kind. -/
def demoDB2 : DBState :=
  { nextBillingId := 2,
    billings := [{ id := 1, documentId := some "monthly-u",
                   namaBilling := some "IPL", keterangan := some "note",
                   bulan := some 1, tahun := some 2025, nominal := some 100000,
                   createdById := some 1, updatedById := some 1,
                   published := true }],
    profileLinks := [{ billingId := 1, profileId := 7 }],
    statusLinks := [{ billingId := 1, masterGeneralStatusId := 5 }],
    kategoriLinks := [{ billingId := 1, masterKategoriTransaksiId := 1 }] }

/-- A closed instance of `bulkMonthly_atomic_fanout`: one resident, one
published definition, clean transaction — one new billing row, and the new
profile-link row carries the new billing's id. -/
theorem bulkMonthly_atomic_fanout_witness :
    demoDB2.billings.length = demoEmptyDB.billings.length +
        [7].length * ([demoSetting].filter fun s => s.published).length ∧
    (demoDB2.profileLinks.drop demoEmptyDB.profileLinks.length).map
        BillingProfileLink.billingId =
      (demoDB2.billings.drop demoEmptyDB.billings.length).map Billing.id := by
  have h : createBulkMonthlyBillings [7] [demoSetting] 5 1 2025 (fun _ => "u")
      demoEmptyDB demoCleanTx =
      .ok ({ totalUsers := 1, totalBillings := 1, successCount := 1,
             failedCount := 0, errors := [] }, demoDB2) := by
    rfl
  have t := bulkMonthly_atomic_fanout [7] [demoSetting] 5 1 2025 (fun _ => "u")
      demoEmptyDB demoCleanTx _ _ h
  have hc : txClean demoCleanTx := ⟨rfl, rfl, rfl, rfl⟩
  exact ⟨(t.1 hc).1.1, (t.1 hc).2.1⟩

/-- C6: when the persistence transaction fails, the caller still receives a
structured result (a nil Go error): the success count is 0, the failure
count is the full number of billings attempted (`k*m`), the first error
message is captured in the error list, and the database is exactly as
before the call. -/
theorem bulkMonthly_failure_reports_zero_success (users : List Nat)
    (settings : List SettingBilling) (statusId : Nat) (month year : Int)
    (uuids : Nat → String) (db : DBState) (tf : TxFail) (e : String)
    (husers : users ≠ []) (hsettings : settings ≠ [])
    (hfail : firstTxError tf = some e) :
    createBulkMonthlyBillings users settings statusId month year uuids db tf =
      .ok ({ totalUsers := users.length,
             totalBillings :=
               users.length * (settings.filter fun s => s.published).length,
             successCount := 0,
             failedCount :=
               users.length * (settings.filter fun s => s.published).length,
             errors := [e] }, db) := by
  have hs : settings.isEmpty = false := by
    cases settings with
    | nil => exact absurd rfl hsettings
    | cons a l => rfl
  have hu : users.isEmpty = false := by
    cases users with
    | nil => exact absurd rfl husers
    | cons a l => rfl
  rw [createBulkMonthlyBillings]
  simp only [hs, hu, Bool.false_eq_true, if_false]
  rw [runBulkTx_error db tf _ _ _ _ e hfail, length_cohortPairs]

def demoFailTx : TxFail :=
  { onBillings := some "boom", onProfileLinks := none,
    onStatusLinks := none, onKategoriLinks := none }

/-- A closed instance of `bulkMonthly_failure_reports_zero_success`: a
failing billing insert yields success 0, failure 1 and the wrapped database
error, with the database untouched. -/
theorem bulkMonthly_failure_witness :
    createBulkMonthlyBillings [7] [demoSetting] 5 1 2025 (fun _ => "u")
        demoEmptyDB demoFailTx =
      .ok ({ totalUsers := 1, totalBillings := 1, successCount := 0,
             failedCount := 1,
             errors := ["failed to create billings: boom"] }, demoEmptyDB) := by
  have t := bulkMonthly_failure_reports_zero_success [7] [demoSetting] 5 1 2025
      (fun _ => "u") demoEmptyDB demoFailTx "failed to create billings: boom"
      (by decide) (by decide) (by decide)
  simpa using t

/-! ### Payment link issuance (multiple billings) -/

/-- Modelled from the spec: the repository lookup `GetBillingsByIDs` called
by `paymentService.CreatePaymentLinkMultiple` (menu_service.go line 195) is
not among the provided sources; the caller's comment ("Get all billings
using WHERE IN (optimized query)") fixes it as a SQL `WHERE id IN (...)`
query: it returns the billings whose ids appear in the request, in table
order, with no error for requested ids that match no row. -/
def getBillingsByIDs (table : List Billing) (ids : List Nat) : List Billing :=
  table.filter fun b => ids.contains b.id

/-- `billing.Nominal == nil || *billing.Nominal <= 0`
(menu_service.go line 211). -/
def invalidNominalB (b : Billing) : Bool :=
  match b.nominal with
  | none => true
  | some v => decide (v ≤ 0)

/-- The error classes of `paymentService.CreatePaymentLinkMultiple`:
`billing IDs cannot be empty`, `no billing records found`, and
`invalid billing nominal for ID %d`. -/
inductive PaymentLinkError where
  | emptyIds : PaymentLinkError
  | noBillingsFound : PaymentLinkError
  | invalidNominal : Nat → PaymentLinkError
deriving DecidableEq, Repr

/-- The invoice-creation request handed to `mayarService.CreatePaymentLink`
(menu_service.go line 236).  Keeping the issued requests as a list makes
"no payment link was requested from the provider" a fact about the result.
The provider HTTP exchange itself is abstracted as succeeding; provider
errors can only occur after the request has been issued. -/
structure MayarCall where
  billings : List Billing
  billingIDsStr : String
  documentIDs : String
  totalAmount : Int
deriving DecidableEq, Repr

/-- The locally constructed response (menu_service.go lines 242-247). -/
structure PaymentLinkResponseM where
  billingIDs : List Nat
  amount : Int
  description : String
deriving DecidableEq, Repr

/-- Embeds `paymentService.CreatePaymentLinkMultiple`
(menu_service.go lines 194-248): reject an empty id list, load the billings
with one `WHERE IN` query, reject when nothing was found, reject on the
first loaded billing with a nil or non-positive nominal, otherwise issue
exactly one provider request carrying the comma-joined requested ids and
the comma-space-joined document ids of the loaded billings. -/
def createPaymentLinkMultiple (table : List Billing) (billingIDs : List Nat) :
    List MayarCall × Except PaymentLinkError PaymentLinkResponseM :=
  if billingIDs.isEmpty then
    ([], .error .emptyIds)
  else if (getBillingsByIDs table billingIDs).isEmpty then
    ([], .error .noBillingsFound)
  else
    match (getBillingsByIDs table billingIDs).find? invalidNominalB with
    | some b => ([], .error (.invalidNominal b.id))
    | none =>
      ([{ billings := getBillingsByIDs table billingIDs,
          billingIDsStr := billingIDsString billingIDs,
          documentIDs := documentIDsString
            ((getBillingsByIDs table billingIDs).filterMap Billing.documentId),
          totalAmount :=
            ((getBillingsByIDs table billingIDs).map fun b => b.nominal.getD 0).sum }],
       .ok { billingIDs := billingIDs,
             amount :=
               ((getBillingsByIDs table billingIDs).map fun b => b.nominal.getD 0).sum,
             description :=
               "Payment for " ++ String.mk (natToChars billingIDs.length) ++ " billings" })

def demoPayTable : List Billing :=
  [{ id := 1, documentId := some "monthly-x", namaBilling := some "IPL",
     keterangan := none, bulan := some 1, tahun := some 2025,
     nominal := some 100000, createdById := none, updatedById := none,
     published := true }]

/-- C7 counterexample: the claim says a request naming any nonexistent
billing id fails with a not-found error and no provider request, but a
request for ids `[1, 2]` against a table holding only billing 1 succeeds:
the `WHERE IN` load silently drops the missing id 2 and a provider request
is issued covering billing 1 alone. -/
theorem paymentLink_missing_id_not_rejected_cx :
    (demoPayTable.map Billing.id).contains 2 = false ∧
    createPaymentLinkMultiple demoPayTable [1, 2] =
      ([{ billings := demoPayTable, billingIDsStr := "1,2",
          documentIDs := "monthly-x", totalAmount := 100000 }],
       .ok { billingIDs := [1, 2], amount := 100000,
             description := "Payment for 2 billings" }) :=
  ⟨by decide, rfl⟩

/-- C7 (amended): for a nonempty request, a not-found error is returned
exactly when none of the requested ids matches a billing row (requested ids
that are missing while others exist are silently dropped); the first loaded
billing with a nil or non-positive amount turns the request into a
validation error naming its id; and in either failure case no provider
request is issued (the call list is empty). -/
theorem paymentLink_error_conditions (table : List Billing) (ids : List Nat)
    (hne : ids ≠ []) :
    (getBillingsByIDs table ids = [] →
      createPaymentLinkMultiple table ids = ([], .error .noBillingsFound)) ∧
    (∀ b, (getBillingsByIDs table ids).find? invalidNominalB = some b →
      createPaymentLinkMultiple table ids = ([], .error (.invalidNominal b.id))) := by
  have hni : ids.isEmpty = false := by
    cases ids with
    | nil => exact absurd rfl hne
    | cons a l => rfl
  constructor
  · intro h
    rw [createPaymentLinkMultiple]
    simp only [hni, Bool.false_eq_true, if_false, h]
    rfl
  · intro b hf
    have hbe : (getBillingsByIDs table ids).isEmpty = false := by
      rcases hg : getBillingsByIDs table ids with _ | ⟨x, xs⟩
      · rw [hg] at hf
        cases hf
      · rfl
    rw [createPaymentLinkMultiple]
    simp only [hni, hbe, Bool.false_eq_true, if_false]
    rw [hf]

def demoZeroBilling : Billing :=
  { id := 3, documentId := none, namaBilling := some "IPL",
    keterangan := none, bulan := some 1, tahun := some 2025,
    nominal := some 0, createdById := none, updatedById := none,
    published := true }

/-- A closed instance of `paymentLink_error_conditions`: a request naming
only the unknown id 5 is rejected as not-found, and a request for billing 3
whose amount is 0 is rejected as a validation error; neither issues a
provider request. -/
theorem paymentLink_error_conditions_witness :
    createPaymentLinkMultiple demoPayTable [5] =
      ([], .error .noBillingsFound) ∧
    createPaymentLinkMultiple [demoZeroBilling] [3] =
      ([], .error (.invalidNominal 3)) :=
  ⟨(paymentLink_error_conditions demoPayTable [5] (by decide)).1 rfl,
   (paymentLink_error_conditions [demoZeroBilling] [3] (by decide)).2
     demoZeroBilling rfl⟩

end IplBeSvc
